import Mathlib

/-!
Verification development for the Emissions Ingestion & Computation Core of
the carbonaegis repository (src/utils/ai_emission_mapper.py).

The Python source is shallowly embedded: pandas cells become the `Value`
inductive, DataFrames become `DF`, the classifier / mapper / calculator
become executable Lean functions translated clause by clause from the
source.  Machine floats are modelled by `ℚ` (all arithmetic in the source
on the inputs considered is exact in the rationals).  Python `dict`s are
modelled by association lists with first-occurrence update, which matches
insertion-ordered dicts with unique keys.
-/

namespace CarbonAegis

/-! ### Character / substring utilities

The source matches lowercased substrings everywhere (`(?i)` regexes,
`str.lower()` + `in`).  We model strings as they are and do matching on
lowercased character lists. -/

/-- `pat` is a prefix of `s` (on character lists). -/
def isPrefixC : List Char → List Char → Bool
  | [], _ => true
  | _ :: _, [] => false
  | a :: as, b :: bs => a == b && isPrefixC as bs

/-- `pat` occurs as a contiguous substring of `s` (on character lists). -/
def containsSub (s pat : List Char) : Bool :=
  match s with
  | [] => isPrefixC pat []
  | _ :: t => isPrefixC pat s || containsSub t pat

/-- Lowercased characters of a string. -/
def lowerChars (s : String) : List Char :=
  s.data.map Char.toLower

/-- Case-insensitive containment: Python `pat in s.lower()` with a
lowercase literal `pat` (we lower both sides, which is equivalent). -/
def strContainsCI (s pat : String) : Bool :=
  containsSub (lowerChars s) (lowerChars pat)

/-- Containment of a (lowercase) token in an already-lowercased string. -/
def strContains (s pat : String) : Bool :=
  containsSub s.data pat.data

/-- The regex fragment `r-\d+`: an `r-` immediately followed by a digit
occurs in the character list. -/
def hasRDigit : List Char → Bool
  | 'r' :: '-' :: c :: rest => c.isDigit || hasRDigit ('-' :: c :: rest)
  | _ :: rest => hasRDigit rest
  | [] => false

/-- Lowercase a whole string. -/
def lowerStr (s : String) : String :=
  String.mk (s.data.map Char.toLower)

/-! ### Cell values

A pandas cell after `read_excel_file`'s `df.replace(\x7bnp.nan: None\x7d)`:
a native number, a string, a boolean, or a null (`None`).  Date-typed
cells do not occur in any claim considered and are outside the model. -/

inductive Value where
  | num (q : ℚ)
  | str (s : String)
  | bool (b : Bool)
  | null
deriving DecidableEq

/-- `pd.notna` on a normalized cell: everything but `None` is non-null
(note that the empty string is *not* NA in pandas). -/
def notna : Value → Bool
  | .null => false
  | _ => true

/-- `pd.api.types.is_numeric_dtype(type(v))`: the runtime type of the cell
is numeric.  Python ints/floats and booleans are numeric types; strings and
`None` are not. -/
def isNumericType : Value → Bool
  | .num _ => true
  | .bool _ => true
  | _ => false

/-- `float(v)` for cells of numeric runtime type.  On strings the source
would attempt a parse and raise `ValueError` on failure; no claim below
evaluates `float` on a string cell, and the model returns `0` there. -/
def pyFloat : Value → ℚ
  | .num q => q
  | .bool b => if b then 1 else 0
  | _ => 0

/-- `float`-coercion of a cell of numeric runtime type, `none` otherwise.
This is exactly the guard `pd.notna(v) and is_numeric_dtype(type(v))`
followed by `float(v)` used by the row mapper's amount selection. -/
def numValue? : Value → Option ℚ
  | .num q => some q
  | .bool b => some (if b then 1 else 0)
  | _ => none

/-- Python `str(v)` on a cell.  Faithful for strings and booleans; numeric
cells are rendered in integer decimal form when integral (the claims never
stringify a non-integral numeric cell). -/
def pyStr : Value → String
  | .str s => s
  | .num q => if q.den = 1 then toString q.num else toString q
  | .bool b => if b then "True" else "False"
  | .null => "None"

/-! ### Tables, column mappings and dictionaries -/

/-- An in-memory table: ordered column names, and rows as (total) maps
from column name to cell (`row[col]`); absent columns read as null. -/
structure DF where
  cols : List String
  rows : List (String → Value)

/-- Cells of one column, in row order (`df[column]`). -/
def colCells (df : DF) (c : String) : List Value :=
  df.rows.map (fun r => r c)

/-- A pandas column has a numeric dtype (post NaN→None normalization)
exactly when it is non-empty and every cell is a native number. -/
def colIsNumeric (cells : List Value) : Bool :=
  !cells.isEmpty && cells.all (fun v => match v with | .num _ => true | _ => false)

/-- Whether a cell is null. -/
def isNullV : Value → Bool
  | .null => true
  | _ => false

/-- `pd.api.types.is_string_dtype` on an object-dtype column: true for any
non-numeric column holding at least one value (pandas reports object dtype
as string-like). -/
def colIsString (cells : List Value) : Bool :=
  !cells.isEmpty && !colIsNumeric cells && !cells.all isNullV

/-- One column's classification, mirroring the dicts produced by
`detect_column_types` (`category` is the role string). -/
structure Mapping where
  category : String
  confidence : ℚ
  scope : Option ℕ
  unit : Option String
deriving DecidableEq

/-- A Python dict with `Value` entries: an insertion-ordered association
list with unique keys; `d[k] = v` updates in place or appends. -/
def AListV := List (String × Value)
deriving DecidableEq

/-- `d[k] = v` on a `Value` dict: overwrite the first occurrence keeping
its position, else append. -/
def dset : AListV → String → Value → AListV
  | [], k, v => [(k, v)]
  | (k', v') :: rest, k, v =>
    if k' == k then (k', v) :: rest else (k', v') :: dset rest k v

/-- `d.get(k)` on a `Value` dict. -/
def dget (d : AListV) (k : String) : Option Value :=
  match d with
  | [] => none
  | (k', v) :: rest => if k' == k then some v else dget rest k

/-- `d[k] = d.get(k, 0.0) + e` on a numeric dict (the calculator's
per-kind accumulation). -/
def dincr : List (String × ℚ) → String → ℚ → List (String × ℚ)
  | [], k, e => [(k, e)]
  | (k', v) :: rest, k, e =>
    if k' == k then (k', v + e) :: rest else (k', v) :: dincr rest k e

/-- Lookup in a numeric dict, reading absent keys as `0` (how the report's
consumers treat per-kind totals). -/
def catTotal (d : List (String × ℚ)) (k : String) : ℚ :=
  match d with
  | [] => 0
  | (k', v) :: rest => if k' == k then v else catTotal rest k

/-! ### Column classifier (`detect_column_types` and helpers) -/

/-- `get_scope_for_category`. -/
def scopeForCategory (category : String) : Option ℕ :=
  if category == "fuel" then some 1
  else if category == "refrigerant" then some 1
  else if category == "electricity" then some 2
  else if category == "transport" then some 3
  else if category == "waste" then some 3
  else if category == "water" then some 3
  else none

/-- The case-insensitive name-pattern table of `detect_column_types`, in
source order; each regex is an alternation of literal substrings, except
`refrigerant` which additionally carries `r-\d+` (handled separately). -/
def namePatterns : List (String × List String) :=
  [("fuel", ["fuel", "diesel", "gasoline", "petrol", "gas", "oil", "litre", "liter",
             "gallon", "combustion", "fleet", "vehicle fuel", "natural gas", "lpg",
             "propane", "biodiesel"]),
   ("electricity", ["electric", "energy", "kwh", "mwh", "power", "consumption",
                    "generation", "grid", "renewable", "solar", "wind", "hydroelectric"]),
   ("transport", ["travel", "transport", "vehicle", "flight", "distance", "km", "mile",
                  "commute", "business travel", "train", "bus", "taxi", "airplane",
                  "ship", "ferry", "logistics"]),
   ("waste", ["waste", "landfill", "recycl", "compost", "garbage", "trash", "disposal",
              "incineration", "hazardous", "scrap", "sewage"]),
   ("water", ["water", "m3", "cubic", "consumption", "treatment", "wastewater",
              "effluent", "discharge", "irrigation", "potable"]),
   ("refrigerant", ["refrigerant", "coolant", "air condition", "hfc", "leak",
                    "fugitive", "cooling", "hvac", "chiller"]),
   ("amount", ["amount", "quantity", "volume", "weight", "total", "consumption",
               "usage", "value", "count", "number", "sum"]),
   ("unit", ["unit", "measure", "uom", "metric", "kwh", "kg", "ton", "liter",
             "gallon", "km", "mile", "m3"]),
   ("date", ["date", "time", "period", "month", "year", "quarter", "week", "day",
             "fiscal", "calendar", "report"]),
   ("category", ["category", "type", "class", "scope", "classification", "group",
                 "source", "activity"]),
   ("location", ["location", "site", "facility", "building", "office", "plant",
                 "region", "country", "city", "address", "geography"]),
   ("notes", ["note", "comment", "description", "detail", "additional", "info",
              "remark"])]

/-- Whether a role's pattern fires on a lowercased column name. -/
def patternHit (lname : List Char) (role : String) (kws : List String) : Bool :=
  kws.any (fun kw => containsSub lname kw.data) ||
    (role == "refrigerant" && hasRDigit lname)

/-- First role in `namePatterns` whose pattern matches the column name
(the first pass of `detect_column_types`). -/
def namePatternRole (name : String) : Option String :=
  let lname := lowerChars name
  (namePatterns.find? (fun p => patternHit lname p.1 p.2)).map (·.1)

/-- `detect_unit` for a column: for numeric columns a priority chain over
the (lowercased) column name; for string columns a scan of the first five
non-null values against a token dict; `none` otherwise. -/
def detect_unit (cells : List Value) (name : String) : Option String :=
  if cells.isEmpty || cells.all isNullV then none
  else if colIsNumeric cells then
    let n := lowerStr name
    if strContains n "kwh" || strContains n "kw-h" || strContains n "kilowatt" then some "kWh"
    else if strContains n "mwh" || strContains n "mw-h" || strContains n "megawatt" then some "MWh"
    else if strContains n "kg" || strContains n "kilo" || strContains n "weight" then some "kg"
    else if strContains n "ton" || strContains n "tonne" then some "tonnes"
    else if strContains n "l" || strContains n "liter" || strContains n "litre" then some "litres"
    else if strContains n "gal" || strContains n "gallon" then some "gallons"
    else if strContains n "km" || strContains n "kilometer" then some "km"
    else if strContains n "mi" || strContains n "mile" then some "miles"
    else if strContains n "m3" || strContains n "cubic" then some "m³"
    else none
  else if colIsString cells then
    let samples := (cells.filterMap (fun v => match v with
      | .str s => some (lowerStr s) | _ => none)).take 5
    let units : List (String × String) :=
      [("kwh", "kWh"), ("kilowatt", "kWh"), ("mwh", "MWh"), ("megawatt", "MWh"),
       ("kg", "kg"), ("kilo", "kg"), ("ton", "tonnes"), ("tonne", "tonnes"),
       ("liter", "litres"), ("litre", "litres"), ("gallon", "gallons"),
       ("km", "km"), ("kilometer", "km"), ("mile", "miles"), ("m3", "m³"),
       ("cubic meter", "m³")]
    (samples.findSome? (fun v =>
      (units.find? (fun u => strContains v u.1)).map (·.2)))
  else none

/-- The unit tokens scanned by `infer_from_content` in string cells. -/
def contentUnitTokens : List String :=
  ["kwh", "mwh", "kg", "ton", "tonnes", "liter", "litre", "gallon", "km", "mile", "m3"]

/-- The fuel-type tokens scanned by `infer_from_content` in string cells. -/
def contentFuelTokens : List String :=
  ["diesel", "gasoline", "petrol", "natural gas", "lpg", "propane"]

/-- `infer_from_content`: content-based classification for columns whose
name matched no pattern.  Date-typed columns (the `is_datetime64_any_dtype`
branch) are outside the `Value` model and no claim involves them. -/
def inferFromContent (name : String) (cells : List Value) : Option Mapping :=
  if cells.isEmpty || cells.all isNullV then none
  else if colIsNumeric cells then
    match cells.filterMap (fun v => match v with | .num q => some q | _ => none) with
    | [] => none
    | q :: qs =>
      let mn := qs.foldl min q
      let mx := qs.foldl max q
      if 0 ≤ mn ∧ mn ≤ 100 ∧ 0 ≤ mx ∧ mx ≤ 100 then
        some ⟨"amount", 6/10, none, some "%"⟩
      else
        some ⟨"amount", 7/10, none, detect_unit cells name⟩
  else if colIsString cells then
    let samples := cells.filterMap (fun v => match v with
      | .str s => some (lowerStr s) | _ => none)
    if samples.any (fun v => strContains v "scope 1") then
      some ⟨"category", 8/10, some 1, none⟩
    else if samples.any (fun v => strContains v "scope 2") then
      some ⟨"category", 8/10, some 2, none⟩
    else if samples.any (fun v => strContains v "scope 3") then
      some ⟨"category", 8/10, some 3, none⟩
    else
      match contentUnitTokens.find? (fun u => samples.any (fun v => strContains v u)) with
      | some u => some ⟨"unit", 7/10, none, some u⟩
      | none =>
        if samples.any (fun v => contentFuelTokens.any (fun f => strContains v f)) then
          some ⟨"fuel", 8/10, some 1, none⟩
        else none
  else none

/-- Classification of a single column: name pattern, then content
inference, then `unknown`.  The LLM fallback is gated on `use_ai` and an
API key; every pipeline claim runs with it disabled (the default), so it
is not modelled. -/
def classifyColumn (name : String) (cells : List Value) : Mapping :=
  match namePatternRole name with
  | some r =>
      ⟨r, 8/10, scopeForCategory r,
       if r == "amount" || r == "unit" then detect_unit cells name else none⟩
  | none =>
      match inferFromContent name cells with
      | some mp => mp
      | none => ⟨"unknown", 1/10, none, none⟩

/-- `detect_column_types`: one mapping per column, in column order. -/
def detect_column_types (df : DF) : List (String × Mapping) :=
  df.cols.map (fun c => (c, classifyColumn c (colCells df c)))

/-! ### Factor catalog (`load_emission_factors` defaults) -/

/-- The factor catalog: per-kind insertion-ordered factor dicts. -/
structure Factors where
  fuel : List (String × ℚ)
  electricity : List (String × ℚ)
  transport : List (String × ℚ)
  waste : List (String × ℚ)
  water : List (String × ℚ)
  refrigerant : List (String × ℚ)

/-- The default catalog shipped by `load_emission_factors`. -/
def defaultFactors : Factors where
  fuel := [("Petrol/Gasoline", 2.31), ("Diesel", 2.68), ("LPG/Propane", 1.51),
           ("Natural Gas", 2.02), ("Biodiesel", 1.79), ("E85 (Ethanol)", 1.56)]
  electricity := [("UK", 0.19), ("EU Average", 0.23), ("US Average", 0.38),
                  ("China", 0.55), ("India", 0.71), ("Global Average", 0.48)]
  transport := [("Car (Petrol/Gasoline)", 0.19), ("Car (Diesel)", 0.17),
                ("Car (Hybrid)", 0.11), ("Car (Electric)", 0.05), ("Bus", 0.10),
                ("Train", 0.04), ("Flight (Short-haul)", 0.16),
                ("Flight (Medium-haul)", 0.14), ("Flight (Long-haul)", 0.15)]
  waste := [("Landfill (Mixed)", 0.45), ("Recycled Paper", 0.02),
            ("Recycled Plastic", 0.04), ("Recycled Glass", 0.01),
            ("Recycled Metal", 0.02), ("Composted", 0.01), ("Incineration", 0.22)]
  water := [("Supply", 0.34), ("Treatment", 0.71), ("Recycled", 0.05)]
  refrigerant := [("R-410A", 2088), ("R-22", 1810), ("R-134a", 1430),
                  ("R-404A", 3922), ("R-407C", 1774), ("R-32", 675)]

/-! ### Row mapper (`map_to_emission_categories`)

The mapper receives the table and the (insertion-ordered) column mappings
and produces zero or one activity record per row, bucketed into the three
scope lists. -/

/-- Python truthiness of the scope variable (`None` and `0` are falsy). -/
def scopeTruthy : Option ℕ → Bool
  | some n => n != 0
  | none => false

/-- Python truthiness of the category text (`None` and `""` are falsy). -/
def cvTruthy : Option String → Bool
  | some s => !s.data.isEmpty
  | none => false

/-- Columns of a given role present in the table, in mapping order
(the `amount_columns` / `unit_columns` / `category_columns` lists). -/
def roleCols (m : List (String × Mapping)) (cols : List String) (role : String) :
    List String :=
  (m.filter (fun p => p.2.category == role && cols.contains p.1)).map (·.1)

/-- Amount selection: first role-`amount` column whose cell is non-null
and of numeric runtime type; its `float` value. -/
def selectAmountAux (row : String → Value) : List String → Option ℚ
  | [] => none
  | c :: rest =>
    if notna (row c) && isNumericType (row c) then some (pyFloat (row c))
    else selectAmountAux row rest

/-- The row's amount (step: `# Extract amount`). -/
def selectAmount (df : DF) (m : List (String × Mapping)) (row : String → Value) :
    Option ℚ :=
  selectAmountAux row (roleCols m df.cols "amount")

/-- The row's unit string: first non-null role-`unit` cell, stringified. -/
def selectUnit (df : DF) (m : List (String × Mapping)) (row : String → Value) :
    Option String :=
  ((roleCols m df.cols "unit").find? (fun c => notna (row c))).map
    (fun c => pyStr (row c))

/-- The row's category text: first non-null role-`category` cell,
stringified and lowercased. -/
def categoryValue (df : DF) (m : List (String × Mapping)) (row : String → Value) :
    Option String :=
  ((roleCols m df.cols "category").find? (fun c => notna (row c))).map
    (fun c => lowerStr (pyStr (row c)))

/-- Roles skipped by the kind-determination loop. -/
def kindScanExcluded : List String := ["amount", "unit", "date", "notes", "unknown"]

/-- The six canonical activity kinds. -/
def kindsList : List String := ["fuel", "refrigerant", "electricity", "transport", "waste", "water"]

/-- The kind-determination loop: every kind-role column with a non-null
cell overwrites `(emission_type, scope)`; the loop breaks only once both
are truthy (so an un-hinted kind column keeps scanning). -/
def kindScanAux (cols : List String) (row : String → Value) :
    List (String × Mapping) → Option String × Option ℕ → Option String × Option ℕ
  | [], acc => acc
  | (c, mp) :: rest, acc =>
    if cols.contains c && !kindScanExcluded.contains mp.category &&
        notna (row c) && kindsList.contains mp.category then
      if scopeTruthy mp.scope then (some mp.category, mp.scope)
      else kindScanAux cols row rest (some mp.category, mp.scope)
    else kindScanAux cols row rest acc

/-- Kind and scope derived from kind-role columns. -/
def kindScan (df : DF) (m : List (String × Mapping)) (row : String → Value) :
    Option String × Option ℕ :=
  kindScanAux df.cols row m (none, none)

/-- Kind (and its hard-coded default scope) from category-text keywords. -/
def textKind (cv : String) : Option (String × ℕ) :=
  if ["fuel", "diesel", "gasoline", "petrol"].any (strContains cv) then
    some ("fuel", 1)
  else if ["refrigerant", "coolant", "r-"].any (strContains cv) then
    some ("refrigerant", 1)
  else if ["electric", "power", "energy"].any (strContains cv) then
    some ("electricity", 2)
  else if ["transport", "travel", "vehicle", "flight"].any (strContains cv) then
    some ("transport", 3)
  else if ["waste", "landfill", "recycl"].any (strContains cv) then
    some ("waste", 3)
  else if strContains cv "water" then
    some ("water", 3)
  else none

/-- The explicit-scope loop: the first column whose mapping carries a
non-`none` scope hint and whose cell is non-null supplies its hint. -/
def columnScopeOverride (df : DF) (m : List (String × Mapping))
    (row : String → Value) : Option ℕ :=
  match m with
  | [] => none
  | (c, mp) :: rest =>
    if df.cols.contains c && mp.scope.isSome && notna (row c) then mp.scope
    else columnScopeOverride df rest row

/-- Scope read off the category text (`scope 1|2|3` containment). -/
def textScope (cv : String) : Option ℕ :=
  if strContains cv "scope 1" then some 1
  else if strContains cv "scope 2" then some 2
  else if strContains cv "scope 3" then some 3
  else none

/-- Stage 1+2 of kind determination: kind columns first; category-text
keywords only when no kind column matched and the text is truthy. -/
def kindStage (df : DF) (m : List (String × Mapping)) (row : String → Value)
    (cv : Option String) : Option String × Option ℕ :=
  let ks := kindScan df m row
  if ks.1.isNone && cvTruthy cv then
    match cv with
    | some s =>
      match textKind s with
      | some (k, sc) => (some k, some sc)
      | none => ks
    | none => ks
  else ks

/-- The scope the row ends up with after the override and text-scope
steps (`scope` just before the final emission test). -/
def rowScope (df : DF) (m : List (String × Mapping)) (row : String → Value)
    (cv : Option String) : Option ℕ :=
  let sc1 := (kindStage df m row cv).2
  let sc2 := match columnScopeOverride df m row with
    | some h => some h
    | none => sc1
  if cvTruthy cv && !scopeTruthy sc2 then
    match cv with
    | some s =>
      match textScope s with
      | some n => some n
      | none => sc2
    | none => sc2
  else sc2

/-- One activity record: the kind tag and the record's data dict (the
source also carries `original_row` verbatim for traceability; no claim
reads it and it is omitted). -/
structure Item where
  type : String
  data : AListV
deriving DecidableEq

/-- Roles excluded from the record's context bag. -/
def contextExcluded : List String := ["unknown", "ignore"]

/-- The record's data dict: amount, unit, lowercased category text, the
kind flag, then every non-excluded non-null cell stored under its *role*
name (later columns of the same role overwrite earlier ones). -/
def buildData (df : DF) (m : List (String × Mapping)) (row : String → Value)
    (amount : ℚ) (unitv : Option String) (cv : Option String) (et : String) :
    AListV :=
  let optStr : Option String → Value := fun o => match o with
    | some s => .str s
    | none => .null
  let d0 : AListV :=
    [("amount", .num amount), ("unit", optStr unitv), ("category", optStr cv),
     (et, .bool true)]
  m.foldl (fun d p =>
    if df.cols.contains p.1 && !contextExcluded.contains p.2.category &&
        notna (row p.1) then
      dset d p.2.category (row p.1)
    else d) d0

/-- The whole per-row mapping: `some (scope, record)` when amount, kind
and scope all resolved, `none` otherwise (the row is silently dropped). -/
def mapRow (df : DF) (m : List (String × Mapping)) (row : String → Value) :
    Option (ℕ × Item) :=
  let cv := categoryValue df m row
  let amount := selectAmount df m row
  let unitv := selectUnit df m row
  let et := (kindStage df m row cv).1
  let sc := rowScope df m row cv
  match amount, et with
  | some a, some k =>
    if scopeTruthy sc then
      some (sc.getD 0, ⟨k, buildData df m row a unitv cv k⟩)
    else none
  | _, _ => none

/-- The three per-scope record lists. -/
structure StructuredData where
  scope1 : List Item
  scope2 : List Item
  scope3 : List Item
deriving DecidableEq

/-- Append a mapped row to the list named by its scope.  A scope outside
1–3 cannot arise from classifier output; in the source it would raise a
`KeyError` on `structured_data[f"scope{n}"]`, and no claim involves one. -/
def routeItem (sd : StructuredData) (x : Option (ℕ × Item)) : StructuredData :=
  match x with
  | none => sd
  | some (n, it) =>
    if n == 1 then { sd with scope1 := sd.scope1 ++ [it] }
    else if n == 2 then { sd with scope2 := sd.scope2 ++ [it] }
    else if n == 3 then { sd with scope3 := sd.scope3 ++ [it] }
    else sd

/-- `map_to_emission_categories`: fold the per-row mapping over the rows
in table order. -/
def map_to_emission_categories (df : DF) (m : List (String × Mapping)) :
    StructuredData :=
  df.rows.foldl (fun sd row => routeItem sd (mapRow df m row)) ⟨[], [], []⟩

/-! ### Emissions calculator (`calculate_emissions`) -/

/-- The subtype scan shared by every calculator branch: the first *string*
value in the record's data dict whose lowercase form contains one of the
kind's keywords. -/
def findSubtype (d : AListV) (kws : List String) : Option String :=
  d.findSome? (fun p => match p.2 with
    | .str s => if kws.any (fun kw => strContainsCI s kw) then some s else none
    | _ => none)

/-- The factor scan shared by every branch: first catalog key *containing*
the lowercased selected subtype; on no hit, the kind's default key is read
from the catalog with the branch's hard-coded fallback value. -/
def resolveFactor (catalog : List (String × ℚ)) (subtype : String)
    (defaultKey : String) (fallback : ℚ) : ℚ :=
  match catalog.find? (fun p => strContainsCI p.1 subtype) with
  | some p => p.2
  | none => ((catalog.find? (fun p => p.1 == defaultKey)).map (·.2)).getD fallback

/-- `float(data.get('amount', 0))` as used by the calculator branches (the
guard `'amount' in data` is checked by each branch before this is read). -/
def dataAmount (d : AListV) : ℚ :=
  match dget d "amount" with
  | some v => pyFloat v
  | none => 0

/-- Per-record emissions, translated branch by branch from
`calculate_emissions`; records of unknown kind or without an `amount` key
fall through with `0.0` (the source still appends a line for them). -/
def itemEmissions (F : Factors) (it : Item) : ℚ :=
  if it.type == "fuel" && (dget it.data "amount").isSome then
    let subtype := (findSubtype it.data ["diesel", "gasoline", "petrol", "natural gas", "lpg"]).getD "Diesel"
    dataAmount it.data * resolveFactor F.fuel subtype "Diesel" 2.68
  else if it.type == "electricity" && (dget it.data "amount").isSome then
    let subtype := (findSubtype it.data ["uk", "us", "eu", "china", "india"]).getD "Global Average"
    dataAmount it.data * resolveFactor F.electricity subtype "Global Average" 0.48
  else if it.type == "transport" && (dget it.data "amount").isSome then
    let subtype := (findSubtype it.data ["car", "bus", "train", "flight", "plane"]).getD "Car (Petrol/Gasoline)"
    dataAmount it.data * resolveFactor F.transport subtype "Car (Petrol/Gasoline)" 0.19
  else if it.type == "waste" && (dget it.data "amount").isSome then
    let subtype := (findSubtype it.data ["landfill", "recycled", "composted", "incineration"]).getD "Landfill (Mixed)"
    dataAmount it.data * resolveFactor F.waste subtype "Landfill (Mixed)" 0.45
  else if it.type == "water" && (dget it.data "amount").isSome then
    let subtype := (findSubtype it.data ["supply", "treatment", "recycled"]).getD "Supply"
    dataAmount it.data * resolveFactor F.water subtype "Supply" 0.34
  else if it.type == "refrigerant" && (dget it.data "amount").isSome then
    let subtype := (findSubtype it.data ["r-", "hfc", "refrigerant"]).getD "R-410A"
    dataAmount it.data * resolveFactor F.refrigerant subtype "R-410A" 2088 / 1000
  else 0

/-- The GWP the calculator resolves for a refrigerant record. -/
def refrigerantGWP (F : Factors) (it : Item) : ℚ :=
  resolveFactor F.refrigerant
    ((findSubtype it.data ["r-", "hfc", "refrigerant"]).getD "R-410A") "R-410A" 2088

/-- One line of the report (the source also carries the human-readable
trace string and `original_row`; no claim reads them). -/
structure Line where
  scope : String
  type : String
  data : AListV
  emissions : ℚ
deriving DecidableEq

/-- Per-scope running totals. -/
structure ScopeRes where
  total : ℚ
  categories : List (String × ℚ)
deriving DecidableEq

/-- The calculator's results object. -/
structure Results where
  scope1 : ScopeRes
  scope2 : ScopeRes
  scope3 : ScopeRes
  total : ℚ
  lineItems : List Line
deriving DecidableEq

/-- The line appended for one record. -/
def mkLine (F : Factors) (scKey : String) (it : Item) : Line :=
  ⟨scKey, it.type, it.data, itemEmissions F it⟩

/-- Processing of one record under a scope key: bump that scope's total
and per-kind dict, the grand total, and append the line. -/
def stepItem (F : Factors) (scKey : String) (r : Results) (it : Item) : Results :=
  let e := itemEmissions F it
  let r1 :=
    if scKey == "scope1" then
      { r with scope1 := ⟨r.scope1.total + e, dincr r.scope1.categories it.type e⟩ }
    else if scKey == "scope2" then
      { r with scope2 := ⟨r.scope2.total + e, dincr r.scope2.categories it.type e⟩ }
    else if scKey == "scope3" then
      { r with scope3 := ⟨r.scope3.total + e, dincr r.scope3.categories it.type e⟩ }
    else r
  { r1 with total := r1.total + e, lineItems := r1.lineItems ++ [mkLine F scKey it] }

/-- The zero-initialized results object. -/
def emptyResults : Results := ⟨⟨0, []⟩, ⟨0, []⟩, ⟨0, []⟩, 0, []⟩

/-- `calculate_emissions`: the scopes are processed in the dict order of
`structured_data` — scope1, then scope2, then scope3. -/
def calculate_emissions (F : Factors) (sd : StructuredData) : Results :=
  sd.scope3.foldl (stepItem F "scope3")
    (sd.scope2.foldl (stepItem F "scope2")
      (sd.scope1.foldl (stepItem F "scope1") emptyResults))

/-- The full pipeline on a table, with the classifier's mappings and the
default factor catalog. -/
def pipeline (df : DF) : Results :=
  calculate_emissions defaultFactors
    (map_to_emission_categories df (detect_column_types df))

/-! ### Tabular reader scratch-buffer model (`read_excel_file`)

Only the temporary-file lifecycle matters to the claims.  The byte buffer
is abstracted by which of the three pandas read attempts would succeed
(`none` models a raised exception); the returned Bool says whether the
temporary file still exists when the function returns.  Column-name
stripping and NaN→None normalization are identities here because `DF` is
already normalized. -/

structure ExcelInput where
  readDefault : Option DF
  readFirstSheet : Option DF
  readAllSheets : Option (List (String × DF))

/-- `pd.DataFrame.empty`: some axis has length 0. -/
def dfEmpty (df : DF) : Bool := df.rows.isEmpty || df.cols.isEmpty

/-- `read_excel_file`: write the upload to a temporary file, try the
default read, then `sheet_name=0`, then all sheets taking the first
non-empty one; unlink the temporary file after a successful read.  The
triple-failure path (and the no-sheets path) return `None` from inside the
nested `except` *before* the `os.unlink` line, leaving the file behind;
the all-sheets-empty path leaves `df` unbound, unlinks, then raises
`NameError` into the outer handler which returns `None`. -/
def read_excel_file (inp : ExcelInput) : Option DF × Bool :=
  match inp.readDefault with
  | some df => (some df, false)
  | none =>
    match inp.readFirstSheet with
    | some df => (some df, false)
    | none =>
      match inp.readAllSheets with
      | none => (none, true)
      | some sheets =>
        if sheets.isEmpty then (none, true)
        else
          match sheets.find? (fun p => !dfEmpty p.2) with
          | some p => (some p.2, false)
          | none => (none, false)

/-! ### Spec-side definitions and concrete inputs -/

/-- Decimal-digit parse of a character list (our own, kernel-friendly). -/
def strDigitsNat? (l : List Char) : Option ℕ :=
  if !l.isEmpty && l.all Char.isDigit then
    some (l.foldl (fun a c => 10 * a + (c.toNat - 48)) 0)
  else none

/-- Modelled from the spec: "numerically coercible to ℝ" — a cell a
`float(...)` coercion would accept.  Numeric and boolean cells coerce to
their value; decimal-digit strings coerce to the number they spell (a
sound under-approximation of Python float parsing, which accepts even
more strings); nulls do not coerce. -/
def specCoercibleNum? : Value → Option ℚ
  | .num q => some q
  | .bool b => some (if b then 1 else 0)
  | .str s => (strDigitsNat? s.data).map (fun n => (n : ℚ))
  | .null => none

/-- The name-priority chain `detect_unit` applies to numeric columns,
as a standalone function of the column name only. -/
def unitFromName (name : String) : Option String :=
  let n := lowerStr name
  if strContains n "kwh" || strContains n "kw-h" || strContains n "kilowatt" then some "kWh"
  else if strContains n "mwh" || strContains n "mw-h" || strContains n "megawatt" then some "MWh"
  else if strContains n "kg" || strContains n "kilo" || strContains n "weight" then some "kg"
  else if strContains n "ton" || strContains n "tonne" then some "tonnes"
  else if strContains n "l" || strContains n "liter" || strContains n "litre" then some "litres"
  else if strContains n "gal" || strContains n "gallon" then some "gallons"
  else if strContains n "km" || strContains n "kilometer" then some "km"
  else if strContains n "mi" || strContains n "mile" then some "miles"
  else if strContains n "m3" || strContains n "cubic" then some "m³"
  else none

/-- `some a` if `a` is `some`, else `b` (Python-style fallback chaining,
used to state the scope-precedence theorem). -/
def firstSome (a b : Option ℕ) : Option ℕ :=
  match a with
  | some x => some x
  | none => b

/-- Scope read off the category text, as an `Option String` chain. -/
def textScopeOf : Option String → Option ℕ
  | some s => textScope s
  | none => none

/-- The record a given row contributes to scope `n`, if any. -/
def rowItemAtScope (df : DF) (m : List (String × Mapping)) (n : ℕ)
    (row : String → Value) : Option Item :=
  match mapRow df m row with
  | some (k, it) => if k == n then some it else none
  | none => none

/-- A row literal: named cells, absent columns null. -/
def mkRow (l : List (String × Value)) : String → Value := fun c =>
  ((l.find? (·.1 == c)).map (·.2)).getD .null

/-- Scenario S3's single row. -/
def s3row : String → Value :=
  mkRow [("Category", .str "Business Flight (Long-haul International)"),
         ("Amount", .num 3500), ("Unit", .str "km"), ("Scope", .str "Scope 3")]

/-- Scenario S3's table. -/
def s3df : DF := ⟨["Category", "Amount", "Unit", "Scope"], [s3row]⟩

/-- A row whose only scope signal is `scope 2` inside the category cell,
for a kind (water) whose default scope is 3. -/
def c2row : String → Value :=
  mkRow [("Category", .str "Water Scope 2"), ("Amount", .num 10)]

/-- Table for the scope-precedence counterexample. -/
def c2df : DF := ⟨["Category", "Amount"], [c2row]⟩

/-- A refrigerant row whose category cell is exactly `R-134a`. -/
def r134row : String → Value :=
  mkRow [("Category", .str "R-134a"), ("Amount", .num 1), ("Unit", .str "kg")]

/-- Table with one 1 kg R-134a row. -/
def r134df : DF := ⟨["Category", "Amount", "Unit"], [r134row]⟩

/-- Scenario S4's single row (2.5 kg of R-410A). -/
def s4row : String → Value :=
  mkRow [("Category", .str "Refrigerant R-410A"), ("Amount", .num 2.5),
         ("Unit", .str "kg"), ("Scope", .str "Scope 1")]

/-- Scenario S4's table. -/
def s4df : DF := ⟨["Category", "Amount", "Unit", "Scope"], [s4row]⟩

/-- A concrete refrigerant record with amount 2.5 and an `R-134a` context
value. -/
def c4item : Item :=
  ⟨"refrigerant", [("amount", .num 2.5), ("category", .str "R-134a")]⟩

/-- A row whose amount-role cell holds the numeric *string* `"42"`. -/
def c5row : String → Value :=
  mkRow [("Category", .str "Diesel Fuel"), ("Amount", .str "42")]

/-- Table for the amount-coercibility counterexample. -/
def c5df : DF := ⟨["Category", "Amount"], [c5row]⟩

/-- A scope-3 (water) row appearing before a scope-1 (fuel) row. -/
def c6row0 : String → Value :=
  mkRow [("Category", .str "Water Supply"), ("Amount", .num 5)]

/-- The later, scope-1 row of the ordering counterexample. -/
def c6row1 : String → Value :=
  mkRow [("Category", .str "Diesel Fuel"), ("Amount", .num 100)]

/-- Two-row table: row 0 maps to scope 3, row 1 to scope 1. -/
def c6df : DF := ⟨["Category", "Amount"], [c6row0, c6row1]⟩

/-- A string column whose *name* contains the unit token `kg`. -/
def c7df : DF := ⟨["Unit kg"], [mkRow [("Unit kg", .str "banana")]]⟩

/-- A row with two amount-role columns: the first holds 0, the second 7. -/
def c9row : String → Value :=
  mkRow [("Category", .str "Diesel Fuel"), ("Amount", .num 0), ("Value", .num 7)]

/-- Table for the zero-amount counterexample. -/
def c9df : DF := ⟨["Category", "Amount", "Value"], [c9row]⟩

/-- A record with a zero amount in its data dict. -/
def zeroItem : Item := ⟨"water", [("amount", .num 0)]⟩

/-- Caller-edited mappings: a kind-role column with no scope hint. -/
def c10m : List (String × Mapping) :=
  [("Fuel", ⟨"fuel", 8/10, none, none⟩), ("Amount", ⟨"amount", 8/10, none, none⟩)]

/-- The row for the unresolved-scope drop witness. -/
def c10row : String → Value :=
  mkRow [("Fuel", .str "diesel"), ("Amount", .num 10)]

/-- Table for the unresolved-scope drop witness. -/
def c10df : DF := ⟨["Fuel", "Amount"], [c10row]⟩

/-- A one-column, one-row table for the reader's success path. -/
def demoDF : DF := ⟨["Amount"], [mkRow [("Amount", .num 1)]]⟩

/-! ### Helper lemmas -/

theorem dincr_sum (d : List (String × ℚ)) (k : String) (e : ℚ) :
    ((dincr d k e).map (·.2)).sum = (d.map (·.2)).sum + e := by
  induction d with
  | nil => simp [dincr]
  | cons p rest ih =>
    by_cases h : p.1 == k <;> simp [dincr, h, ih] <;> ring

theorem catTotal_dincr (d : List (String × ℚ)) (k : String) (e : ℚ) (k' : String) :
    catTotal (dincr d k e) k' = catTotal d k' + (if k' = k then e else 0) := by
  induction d with
  | nil =>
    by_cases h : k' = k
    · subst h; simp [dincr, catTotal]
    · have h2 : (k == k') = false := beq_eq_false_iff_ne.mpr (Ne.symm h)
      simp [dincr, catTotal, h2, h]
  | cons p rest ih =>
    by_cases h : p.1 == k
    · have hk : p.1 = k := by simpa using h
      by_cases h' : p.1 == k'
      · have hk' : p.1 = k' := by simpa using h'
        have hkk : k' = k := hk'.symm.trans hk
        simp [dincr, catTotal, h, h', hkk]
      · have hne : ¬ k' = k := fun hc =>
          absurd (beq_iff_eq.mpr (hk.trans hc.symm)) (by simpa using h')
        simp [dincr, catTotal, h, h', hne]
    · by_cases h' : p.1 == k'
      · have hk' : p.1 = k' := by simpa using h'
        have hne : ¬ k' = k := fun hc =>
          absurd (beq_iff_eq.mpr (hk'.trans hc)) (by simpa using h)
        simp [dincr, catTotal, h, h', hne]
      · simp [dincr, catTotal, h, h', ih]

theorem stepItem_total (F : Factors) (k : String) (r : Results) (it : Item) :
    (stepItem F k r it).total = r.total + itemEmissions F it := by
  unfold stepItem
  split_ifs <;> rfl

theorem stepItem_lineItems (F : Factors) (k : String) (r : Results) (it : Item) :
    (stepItem F k r it).lineItems = r.lineItems ++ [mkLine F k it] := by
  unfold stepItem
  split_ifs <;> rfl

theorem stepItem1_scope1 (F : Factors) (r : Results) (it : Item) :
    (stepItem F "scope1" r it).scope1 =
      ⟨r.scope1.total + itemEmissions F it,
       dincr r.scope1.categories it.type (itemEmissions F it)⟩ := rfl

theorem stepItem1_scope2 (F : Factors) (r : Results) (it : Item) :
    (stepItem F "scope1" r it).scope2 = r.scope2 := rfl

theorem stepItem1_scope3 (F : Factors) (r : Results) (it : Item) :
    (stepItem F "scope1" r it).scope3 = r.scope3 := rfl

theorem stepItem2_scope2 (F : Factors) (r : Results) (it : Item) :
    (stepItem F "scope2" r it).scope2 =
      ⟨r.scope2.total + itemEmissions F it,
       dincr r.scope2.categories it.type (itemEmissions F it)⟩ := rfl

theorem stepItem2_scope1 (F : Factors) (r : Results) (it : Item) :
    (stepItem F "scope2" r it).scope1 = r.scope1 := rfl

theorem stepItem2_scope3 (F : Factors) (r : Results) (it : Item) :
    (stepItem F "scope2" r it).scope3 = r.scope3 := rfl

theorem stepItem3_scope3 (F : Factors) (r : Results) (it : Item) :
    (stepItem F "scope3" r it).scope3 =
      ⟨r.scope3.total + itemEmissions F it,
       dincr r.scope3.categories it.type (itemEmissions F it)⟩ := rfl

theorem stepItem3_scope1 (F : Factors) (r : Results) (it : Item) :
    (stepItem F "scope3" r it).scope1 = r.scope1 := rfl

theorem stepItem3_scope2 (F : Factors) (r : Results) (it : Item) :
    (stepItem F "scope3" r it).scope2 = r.scope2 := rfl

theorem foldl_step_total (F : Factors) (k : String) (items : List Item) :
    ∀ r : Results, (items.foldl (stepItem F k) r).total
      = r.total + (items.map (itemEmissions F)).sum := by
  induction items with
  | nil => intro r; simp
  | cons it rest ih =>
    intro r
    simp only [List.foldl_cons, List.map_cons, List.sum_cons, ih, stepItem_total]
    ring

theorem foldl_step_lines (F : Factors) (k : String) (items : List Item) :
    ∀ r : Results, (items.foldl (stepItem F k) r).lineItems
      = r.lineItems ++ items.map (mkLine F k) := by
  induction items with
  | nil => intro r; simp
  | cons it rest ih =>
    intro r
    simp [List.foldl_cons, ih, stepItem_lineItems]

theorem foldl_step1_scope1 (F : Factors) (items : List Item) :
    ∀ r : Results,
      (items.foldl (stepItem F "scope1") r).scope1.total
        = r.scope1.total + (items.map (itemEmissions F)).sum
      ∧ ((items.foldl (stepItem F "scope1") r).scope1.categories.map (·.2)).sum
        = (r.scope1.categories.map (·.2)).sum + (items.map (itemEmissions F)).sum := by
  induction items with
  | nil => intro r; simp
  | cons it rest ih =>
    intro r
    simp only [List.foldl_cons, List.map_cons, List.sum_cons]
    refine ⟨?_, ?_⟩
    · rw [(ih _).1, stepItem1_scope1]; ring
    · rw [(ih _).2, stepItem1_scope1]
      simp only [dincr_sum]; ring

theorem foldl_step1_others (F : Factors) (items : List Item) :
    ∀ r : Results, (items.foldl (stepItem F "scope1") r).scope2 = r.scope2
      ∧ (items.foldl (stepItem F "scope1") r).scope3 = r.scope3 := by
  induction items with
  | nil => intro r; exact ⟨rfl, rfl⟩
  | cons it rest ih =>
    intro r
    simp only [List.foldl_cons]
    exact ⟨((ih _).1).trans (stepItem1_scope2 F r it),
           ((ih _).2).trans (stepItem1_scope3 F r it)⟩

theorem foldl_step2_scope2 (F : Factors) (items : List Item) :
    ∀ r : Results,
      (items.foldl (stepItem F "scope2") r).scope2.total
        = r.scope2.total + (items.map (itemEmissions F)).sum
      ∧ ((items.foldl (stepItem F "scope2") r).scope2.categories.map (·.2)).sum
        = (r.scope2.categories.map (·.2)).sum + (items.map (itemEmissions F)).sum := by
  induction items with
  | nil => intro r; simp
  | cons it rest ih =>
    intro r
    simp only [List.foldl_cons, List.map_cons, List.sum_cons]
    refine ⟨?_, ?_⟩
    · rw [(ih _).1, stepItem2_scope2]; ring
    · rw [(ih _).2, stepItem2_scope2]
      simp only [dincr_sum]; ring

theorem foldl_step2_others (F : Factors) (items : List Item) :
    ∀ r : Results, (items.foldl (stepItem F "scope2") r).scope1 = r.scope1
      ∧ (items.foldl (stepItem F "scope2") r).scope3 = r.scope3 := by
  induction items with
  | nil => intro r; exact ⟨rfl, rfl⟩
  | cons it rest ih =>
    intro r
    simp only [List.foldl_cons]
    exact ⟨((ih _).1).trans (stepItem2_scope1 F r it),
           ((ih _).2).trans (stepItem2_scope3 F r it)⟩

theorem foldl_step3_scope3 (F : Factors) (items : List Item) :
    ∀ r : Results,
      (items.foldl (stepItem F "scope3") r).scope3.total
        = r.scope3.total + (items.map (itemEmissions F)).sum
      ∧ ((items.foldl (stepItem F "scope3") r).scope3.categories.map (·.2)).sum
        = (r.scope3.categories.map (·.2)).sum + (items.map (itemEmissions F)).sum := by
  induction items with
  | nil => intro r; simp
  | cons it rest ih =>
    intro r
    simp only [List.foldl_cons, List.map_cons, List.sum_cons]
    refine ⟨?_, ?_⟩
    · rw [(ih _).1, stepItem3_scope3]; ring
    · rw [(ih _).2, stepItem3_scope3]
      simp only [dincr_sum]; ring

theorem foldl_step3_others (F : Factors) (items : List Item) :
    ∀ r : Results, (items.foldl (stepItem F "scope3") r).scope1 = r.scope1
      ∧ (items.foldl (stepItem F "scope3") r).scope2 = r.scope2 := by
  induction items with
  | nil => intro r; exact ⟨rfl, rfl⟩
  | cons it rest ih =>
    intro r
    simp only [List.foldl_cons]
    exact ⟨((ih _).1).trans (stepItem3_scope1 F r it),
           ((ih _).2).trans (stepItem3_scope2 F r it)⟩

theorem mkLine_scope (F : Factors) (k : String) (it : Item) :
    (mkLine F k it).scope = k := rfl

theorem filter_mkLine_same (F : Factors) (k : String) (l : List Item) :
    (l.map (mkLine F k)).filter (fun x => x.scope == k) = l.map (mkLine F k) := by
  induction l with
  | nil => rfl
  | cons it rest ih => simp [mkLine, ih]

theorem filter_mkLine_other (F : Factors) (k k' : String) (l : List Item)
    (h : (k == k') = false) :
    (l.map (mkLine F k)).filter (fun x => x.scope == k') = [] := by
  induction l with
  | nil => rfl
  | cons it rest ih => simp [mkLine, h, ih]

theorem map_emissions_mkLine (F : Factors) (k : String) (l : List Item) :
    ((l.map (mkLine F k)).map (fun x => x.emissions)).sum
      = (l.map (itemEmissions F)).sum := by
  rw [List.map_map]; rfl

theorem routeFold_scope1 (df : DF) (m : List (String × Mapping))
    (rows : List (String → Value)) :
    ∀ sd : StructuredData,
      (rows.foldl (fun sd row => routeItem sd (mapRow df m row)) sd).scope1
        = sd.scope1 ++ rows.filterMap (rowItemAtScope df m 1) := by
  induction rows with
  | nil => intro sd; simp
  | cons row rest ih =>
    intro sd
    simp only [List.foldl_cons, List.filterMap_cons, ih]
    unfold rowItemAtScope routeItem
    match h : mapRow df m row with
    | none => simp
    | some (n, it) =>
      by_cases h1 : n == 1
      · simp [h1]
      · by_cases h2 : n == 2 <;> by_cases h3 : n == 3 <;> simp [h1, h2, h3]

theorem routeFold_scope2 (df : DF) (m : List (String × Mapping))
    (rows : List (String → Value)) :
    ∀ sd : StructuredData,
      (rows.foldl (fun sd row => routeItem sd (mapRow df m row)) sd).scope2
        = sd.scope2 ++ rows.filterMap (rowItemAtScope df m 2) := by
  induction rows with
  | nil => intro sd; simp
  | cons row rest ih =>
    intro sd
    simp only [List.foldl_cons, List.filterMap_cons, ih]
    unfold rowItemAtScope routeItem
    match h : mapRow df m row with
    | none => simp
    | some (n, it) =>
      by_cases h1 : n == 1
      · have : ¬ n == 2 := by
          intro hc
          exact absurd ((beq_iff_eq.mp h1).symm.trans (beq_iff_eq.mp hc)) (by decide)
        simp [h1, this]
      · by_cases h2 : n == 2 <;> by_cases h3 : n == 3 <;> simp [h1, h2, h3]

theorem routeFold_scope3 (df : DF) (m : List (String × Mapping))
    (rows : List (String → Value)) :
    ∀ sd : StructuredData,
      (rows.foldl (fun sd row => routeItem sd (mapRow df m row)) sd).scope3
        = sd.scope3 ++ rows.filterMap (rowItemAtScope df m 3) := by
  induction rows with
  | nil => intro sd; simp
  | cons row rest ih =>
    intro sd
    simp only [List.foldl_cons, List.filterMap_cons, ih]
    unfold rowItemAtScope routeItem
    match h : mapRow df m row with
    | none => simp
    | some (n, it) =>
      by_cases h1 : n == 1
      · have : ¬ n == 3 := by
          intro hc
          exact absurd ((beq_iff_eq.mp h1).symm.trans (beq_iff_eq.mp hc)) (by decide)
        simp [h1, this]
      · by_cases h2 : n == 2
        · have : ¬ n == 3 := by
            intro hc
            exact absurd ((beq_iff_eq.mp h2).symm.trans (beq_iff_eq.mp hc)) (by decide)
          simp [h1, h2, this]
        · by_cases h3 : n == 3 <;> simp [h1, h2, h3]

theorem textKind_scope_ne (s : String) (p : String × ℕ) (h : textKind s = some p) :
    p.2 ≠ 0 := by
  unfold textKind at h
  split_ifs at h
  all_goals
    first
    | exact Option.noConfusion h
    | · have hp := Option.some.inj h.symm
        subst hp
        simp

theorem kindScanAux_scope_ne (cols : List String) (row : String → Value) :
    ∀ (m : List (String × Mapping)) (acc : Option String × Option ℕ),
      (∀ p ∈ m, p.2.scope ≠ some 0) → acc.2 ≠ some 0 →
      (kindScanAux cols row m acc).2 ≠ some 0 := by
  intro m
  induction m with
  | nil => intro acc _ hacc; exact hacc
  | cons p rest ih =>
    intro acc hm hacc
    have hp : p.2.scope ≠ some 0 := hm p (by simp)
    have hrest : ∀ q ∈ rest, q.2.scope ≠ some 0 := fun q hq => hm q (by simp [hq])
    unfold kindScanAux
    split_ifs with h1 h2
    · exact hp
    · exact ih (some p.2.category, p.2.scope) hrest hp
    · exact ih acc hrest hacc

theorem columnScopeOverride_ne (df : DF) (row : String → Value) :
    ∀ m : List (String × Mapping), (∀ p ∈ m, p.2.scope ≠ some 0) →
      columnScopeOverride df m row ≠ some 0 := by
  intro m
  induction m with
  | nil => intro _; simp [columnScopeOverride]
  | cons p rest ih =>
    intro hm
    unfold columnScopeOverride
    split_ifs with h1
    · exact hm p (by simp)
    · exact ih (fun q hq => hm q (by simp [hq]))

theorem kindScanAux_scope_none (cols : List String) (row : String → Value) :
    ∀ (m : List (String × Mapping)) (acc : Option String × Option ℕ),
      (∀ p ∈ m, p.2.scope = none) → acc.2 = none →
      (kindScanAux cols row m acc).2 = none := by
  intro m
  induction m with
  | nil => intro acc _ hacc; exact hacc
  | cons p rest ih =>
    intro acc hm hacc
    have hp : p.2.scope = none := hm p (by simp)
    have hrest : ∀ q ∈ rest, q.2.scope = none := fun q hq => hm q (by simp [hq])
    unfold kindScanAux
    split_ifs with h1 h2
    · rw [hp] at h2; exact absurd h2 (by simp [scopeTruthy])
    · exact ih (some p.2.category, p.2.scope) hrest hp
    · exact ih acc hrest hacc

theorem columnScopeOverride_none (df : DF) (row : String → Value) :
    ∀ m : List (String × Mapping), (∀ p ∈ m, p.2.scope = none) →
      columnScopeOverride df m row = none := by
  intro m
  induction m with
  | nil => intro _; simp [columnScopeOverride]
  | cons p rest ih =>
    intro hm
    unfold columnScopeOverride
    split_ifs with h1
    · exact absurd h1 (by simp [hm p (by simp), Option.isSome])
    · exact ih (fun q hq => hm q (by simp [hq]))

theorem kindStage_scope_ne (df : DF) (m : List (String × Mapping))
    (row : String → Value) (cv : Option String)
    (h : ∀ p ∈ m, p.2.scope ≠ some 0) :
    (kindStage df m row cv).2 ≠ some 0 := by
  have hks : (kindScan df m row).2 ≠ some 0 :=
    kindScanAux_scope_ne df.cols row m (none, none) h (by simp)
  unfold kindStage
  dsimp only
  split_ifs with h1
  · match hcv : cv with
    | none => exact hks
    | some s =>
      match htk : textKind s with
      | none => simpa [htk] using hks
      | some p =>
        simp only [htk]
        simpa using textKind_scope_ne s p htk
  · exact hks

theorem textScope_of_nil (s : String) (h : s.data = []) : textScope s = none := by
  unfold textScope strContains
  rw [h]
  decide

theorem colIsNumeric_not_degenerate (cells : List Value)
    (h : colIsNumeric cells = true) :
    (cells.isEmpty || cells.all isNullV) = false := by
  match cells with
  | [] => simp [colIsNumeric] at h
  | v :: rest =>
    simp only [colIsNumeric, List.all_cons, Bool.and_eq_true] at h
    match v with
    | .num q => simp [isNullV]
    | .str _ => simp at h
    | .bool _ => simp at h
    | .null => simp at h

theorem selectAmountAux_eq (row : String → Value) :
    ∀ cols : List String,
      selectAmountAux row cols = ((cols.map row).filterMap numValue?).head? := by
  intro cols
  induction cols with
  | nil => rfl
  | cons c rest ih =>
    match hv : row c with
    | .num q => simp [selectAmountAux, hv, notna, isNumericType, pyFloat, numValue?]
    | .bool b => simp [selectAmountAux, hv, notna, isNumericType, pyFloat, numValue?]
    | .str s => simp [selectAmountAux, hv, notna, isNumericType, numValue?, ih]
    | .null => simp [selectAmountAux, hv, notna, numValue?, ih]

theorem selectAmountAux_null_for_str (row : String → Value) (c : String)
    (s : String) (h : row c = Value.str s) :
    ∀ cols : List String,
      selectAmountAux row cols
        = selectAmountAux (fun q => if q == c then Value.null else row q) cols := by
  intro cols
  induction cols with
  | nil => rfl
  | cons c0 rest ih =>
    by_cases hc : c0 == c
    · have hc0 : c0 = c := beq_iff_eq.mp hc
      rw [hc0]
      simp [selectAmountAux, h, notna, isNumericType, ih]
    · simp [selectAmountAux, hc, ih]

/-! ### Claim theorems -/

/-- C3: for every report produced by the calculator, with any factor
catalog and any structured data: the grand total equals the sum of the
three per-scope totals; each per-scope total equals the sum of the
emissions of that scope's lines; each per-scope total equals the sum of
its per-kind category totals; and the grand total equals the sum of
emissions over the full ordered line-item list.  The equalities are exact
in ℚ, hence hold a fortiori within any floating-point tolerance. -/
theorem c3_report_invariants (F : Factors) (sd : StructuredData) :
    (calculate_emissions F sd).total
        = (calculate_emissions F sd).scope1.total
          + (calculate_emissions F sd).scope2.total
          + (calculate_emissions F sd).scope3.total
    ∧ (calculate_emissions F sd).scope1.total
        = (((calculate_emissions F sd).lineItems.filter
            (fun l => l.scope == "scope1")).map (fun l => l.emissions)).sum
    ∧ (calculate_emissions F sd).scope2.total
        = (((calculate_emissions F sd).lineItems.filter
            (fun l => l.scope == "scope2")).map (fun l => l.emissions)).sum
    ∧ (calculate_emissions F sd).scope3.total
        = (((calculate_emissions F sd).lineItems.filter
            (fun l => l.scope == "scope3")).map (fun l => l.emissions)).sum
    ∧ (calculate_emissions F sd).scope1.total
        = ((calculate_emissions F sd).scope1.categories.map (fun p => p.2)).sum
    ∧ (calculate_emissions F sd).scope2.total
        = ((calculate_emissions F sd).scope2.categories.map (fun p => p.2)).sum
    ∧ (calculate_emissions F sd).scope3.total
        = ((calculate_emissions F sd).scope3.categories.map (fun p => p.2)).sum
    ∧ (calculate_emissions F sd).total
        = ((calculate_emissions F sd).lineItems.map (fun l => l.emissions)).sum := by
  have hr1 := foldl_step1_scope1 F sd.scope1 emptyResults
  have hr1o := foldl_step1_others F sd.scope1 emptyResults
  have ht1 := foldl_step_total F "scope1" sd.scope1 emptyResults
  have hl1 := foldl_step_lines F "scope1" sd.scope1 emptyResults
  set r1 := sd.scope1.foldl (stepItem F "scope1") emptyResults with hr1def
  have hr2 := foldl_step2_scope2 F sd.scope2 r1
  have hr2o := foldl_step2_others F sd.scope2 r1
  have ht2 := foldl_step_total F "scope2" sd.scope2 r1
  have hl2 := foldl_step_lines F "scope2" sd.scope2 r1
  set r2 := sd.scope2.foldl (stepItem F "scope2") r1 with hr2def
  have hr3 := foldl_step3_scope3 F sd.scope3 r2
  have hr3o := foldl_step3_others F sd.scope3 r2
  have ht3 := foldl_step_total F "scope3" sd.scope3 r2
  have hl3 := foldl_step_lines F "scope3" sd.scope3 r2
  have hcalc : calculate_emissions F sd = sd.scope3.foldl (stepItem F "scope3") r2 := rfl
  set r := sd.scope3.foldl (stepItem F "scope3") r2 with hrdef
  have hempty1 : emptyResults.scope1 = ⟨0, []⟩ := rfl
  have hempty2 : emptyResults.scope2 = ⟨0, []⟩ := rfl
  have hempty3 : emptyResults.scope3 = ⟨0, []⟩ := rfl
  have hs1 : r.scope1 = r1.scope1 := hr3o.1.trans hr2o.1
  have hs2 : r.scope2 = r2.scope2 := hr3o.2
  have hs1t : r.scope1.total = (sd.scope1.map (itemEmissions F)).sum := by
    rw [hs1, hr1.1, hempty1]; simp
  have hs1c : (r.scope1.categories.map (fun p => p.2)).sum
      = (sd.scope1.map (itemEmissions F)).sum := by
    rw [hs1, hr1.2, hempty1]; simp
  have hs2t : r.scope2.total = (sd.scope2.map (itemEmissions F)).sum := by
    rw [hs2, hr2.1, hr1o.1, hempty2]; simp
  have hs2c : (r.scope2.categories.map (fun p => p.2)).sum
      = (sd.scope2.map (itemEmissions F)).sum := by
    rw [hs2, hr2.2, hr1o.1, hempty2]; simp
  have hs3t : r.scope3.total = (sd.scope3.map (itemEmissions F)).sum := by
    rw [hr3.1, hr2o.2, hr1o.2, hempty3]; simp
  have hs3c : (r.scope3.categories.map (fun p => p.2)).sum
      = (sd.scope3.map (itemEmissions F)).sum := by
    rw [hr3.2, hr2o.2, hr1o.2, hempty3]; simp
  have htot : r.total = (sd.scope1.map (itemEmissions F)).sum
      + (sd.scope2.map (itemEmissions F)).sum
      + (sd.scope3.map (itemEmissions F)).sum := by
    rw [ht3, ht2, ht1]
    have : emptyResults.total = 0 := rfl
    rw [this]; ring
  have hlines : r.lineItems
      = sd.scope1.map (mkLine F "scope1") ++ sd.scope2.map (mkLine F "scope2")
        ++ sd.scope3.map (mkLine F "scope3") := by
    rw [hl3, hl2, hl1]
    have : emptyResults.lineItems = [] := rfl
    rw [this]; simp
  rw [hcalc]
  refine ⟨?_, ?_, ?_, ?_, ?_, ?_, ?_, ?_⟩
  · rw [htot, hs1t, hs2t, hs3t]
  · rw [hlines, hs1t]
    rw [List.filter_append, List.filter_append]
    rw [filter_mkLine_same F "scope1" sd.scope1,
        filter_mkLine_other F "scope2" "scope1" sd.scope2 (by decide),
        filter_mkLine_other F "scope3" "scope1" sd.scope3 (by decide)]
    simp only [List.append_nil, List.nil_append]
    rw [map_emissions_mkLine]
  · rw [hlines, hs2t]
    rw [List.filter_append, List.filter_append]
    rw [filter_mkLine_same F "scope2" sd.scope2,
        filter_mkLine_other F "scope1" "scope2" sd.scope1 (by decide),
        filter_mkLine_other F "scope3" "scope2" sd.scope3 (by decide)]
    simp only [List.append_nil, List.nil_append]
    rw [map_emissions_mkLine]
  · rw [hlines, hs3t]
    rw [List.filter_append, List.filter_append]
    rw [filter_mkLine_same F "scope3" sd.scope3,
        filter_mkLine_other F "scope1" "scope3" sd.scope1 (by decide),
        filter_mkLine_other F "scope2" "scope3" sd.scope2 (by decide)]
    simp only [List.append_nil, List.nil_append]
    rw [map_emissions_mkLine]
  · rw [hs1t, hs1c]
  · rw [hs2t, hs2c]
  · rw [hs3t, hs3c]
  · rw [htot, hlines]
    simp only [List.map_append, List.sum_append]
    rw [map_emissions_mkLine, map_emissions_mkLine, map_emissions_mkLine]

/-- C6 (amended): the report's line list is the scope-1 lines, then the
scope-2 lines, then the scope-3 lines; within each scope group the lines
appear in input row order (each group is a `filterMap` over the rows in
table order).  Global input row order across different scopes is *not*
preserved — see the counterexample. -/
theorem c6_amended (df : DF) (m : List (String × Mapping)) (F : Factors) :
    (calculate_emissions F (map_to_emission_categories df m)).lineItems
      = (df.rows.filterMap (rowItemAtScope df m 1)).map (mkLine F "scope1")
        ++ (df.rows.filterMap (rowItemAtScope df m 2)).map (mkLine F "scope2")
        ++ (df.rows.filterMap (rowItemAtScope df m 3)).map (mkLine F "scope3") := by
  have h1 : (map_to_emission_categories df m).scope1
      = df.rows.filterMap (rowItemAtScope df m 1) := by
    have := routeFold_scope1 df m df.rows ⟨[], [], []⟩
    simpa [map_to_emission_categories] using this
  have h2 : (map_to_emission_categories df m).scope2
      = df.rows.filterMap (rowItemAtScope df m 2) := by
    have := routeFold_scope2 df m df.rows ⟨[], [], []⟩
    simpa [map_to_emission_categories] using this
  have h3 : (map_to_emission_categories df m).scope3
      = df.rows.filterMap (rowItemAtScope df m 3) := by
    have := routeFold_scope3 df m df.rows ⟨[], [], []⟩
    simpa [map_to_emission_categories] using this
  set sd := map_to_emission_categories df m
  have hl1 := foldl_step_lines F "scope1" sd.scope1 emptyResults
  set r1 := sd.scope1.foldl (stepItem F "scope1") emptyResults
  have hl2 := foldl_step_lines F "scope2" sd.scope2 r1
  set r2 := sd.scope2.foldl (stepItem F "scope2") r1
  have hl3 := foldl_step_lines F "scope3" sd.scope3 r2
  have hcalc : calculate_emissions F sd = sd.scope3.foldl (stepItem F "scope3") r2 := rfl
  rw [hcalc, hl3, hl2, hl1]
  have : emptyResults.lineItems = [] := rfl
  rw [this, h1, h2, h3]
  simp

unseal Rat.mul Rat.add Rat.sub Rat.inv Rat.ofScientific in
/-- C1 (counterexample): on scenario S3's row the pipeline does produce
exactly one transport line in scope 3, but its emissions are 665.0
(factor 0.19), not 525.0 (factor 0.15): the selected subtype string is
never a *substring of* any catalog key, so the default applies. -/
theorem c1_counterexample :
    (pipeline s3df).lineItems.map (fun l => (l.scope, l.type, l.emissions))
      = [("scope3", "transport", 665)]
    ∧ (665 : ℚ) ≠ 3500 * 0.15 := by
  exact ⟨by decide, by decide⟩

unseal Rat.mul Rat.add Rat.sub Rat.inv Rat.ofScientific in
/-- C1 (amended): on scenario S3's row the pipeline produces exactly one
line with kind transport and scope 3; the calculator's subtype scan finds
no string in the record's context bag containing a transport keyword (the
Scope column, also classified as role category, overwrites the context
bag's category entry), and even the raw category text is not a substring
of any catalog key, so the kind default Car (Petrol/Gasoline) with factor
0.19 applies: emissions = 3500 × 0.19 = 665.0. -/
theorem c1_amended :
    (pipeline s3df).lineItems.map (fun l => (l.scope, l.type, l.emissions))
      = [("scope3", "transport", 3500 * 0.19)]
    ∧ (∀ l ∈ (pipeline s3df).lineItems,
        findSubtype l.data ["car", "bus", "train", "flight", "plane"] = none)
    ∧ (pipeline s3df).total = 665
    ∧ (pipeline s3df).scope3.total = 665 := by
  exact ⟨by decide, by decide, by decide, by decide⟩

unseal Rat.mul Rat.add Rat.sub Rat.inv Rat.ofScientific in
/-- C2 (counterexample): a row whose only scope signal is `scope 2` inside
a category cell, with kind water (default scope 3), yields a line in
scope 3, not scope 2: the code consults the category-text scope only when
no scope is set at all, and the kind keyword already set the default. -/
theorem c2_counterexample :
    categoryValue c2df (detect_column_types c2df) c2row = some "water scope 2"
    ∧ (∀ p ∈ detect_column_types c2df, p.2.scope = none)
    ∧ (pipeline c2df).lineItems.map (fun l => (l.scope, l.type))
        = [("scope3", "water")]
    ∧ (pipeline c2df).scope2.total = 0 := by
  exact ⟨by decide, by decide, by decide, by decide⟩

/-- C2 (amended): the scope recorded for a mapped row follows the
precedence column scope hint > kind-derived scope (kind-column hint, or
the keyword default when the kind comes from category text) > category
text `scope N`; the category-text scope is consulted only when no other
stage produced a scope.  (Stated for scope hints in {1,2,3,⊥}, i.e. no
hint equal to 0, which is all the classifier can produce.) -/
theorem c2_amended (df : DF) (m : List (String × Mapping)) (row : String → Value)
    (h : ∀ p ∈ m, p.2.scope ≠ some 0) :
    rowScope df m row (categoryValue df m row)
      = firstSome (columnScopeOverride df m row)
          (firstSome (kindStage df m row (categoryValue df m row)).2
            (textScopeOf (categoryValue df m row))) := by
  set cv := categoryValue df m row with hcv
  unfold rowScope
  dsimp only
  match hov : columnScopeOverride df m row with
  | some n =>
    have hne : n ≠ 0 := by
      have h0 := columnScopeOverride_ne df row m h
      rw [hov] at h0
      intro hc; exact h0 (by rw [hc])
    have hst : scopeTruthy (some n) = true := by simp [scopeTruthy, hne]
    simp [hst, firstSome]
  | none =>
    match hks : (kindStage df m row cv).2 with
    | some n =>
      have hne : n ≠ 0 := by
        have h0 := kindStage_scope_ne df m row cv h
        rw [hks] at h0
        intro hc; exact h0 (by rw [hc])
      have hst : scopeTruthy (some n) = true := by simp [scopeTruthy, hne]
      simp [hst, firstSome]
    | none =>
      simp only [firstSome, scopeTruthy, Bool.not_false, Bool.and_true]
      match hcvv : cv with
      | none => simp [cvTruthy, textScopeOf]
      | some s =>
        by_cases hse : s.data.isEmpty
        · have hnil : s.data = [] := by simpa using hse
          simp [cvTruthy, hse, textScopeOf, textScope_of_nil s hnil]
        · simp only [cvTruthy, hse, Bool.not_false, if_true, textScopeOf]
          match hts : textScope s with
          | some n => simp
          | none => simp

unseal Rat.mul Rat.add Rat.sub Rat.inv Rat.ofScientific in
/-- C2 (amended) witness: the precedence equation instantiated at the
`Water Scope 2` table with its classifier mappings. -/
theorem c2_amended_witness :
    rowScope c2df (detect_column_types c2df) c2row
        (categoryValue c2df (detect_column_types c2df) c2row)
      = firstSome (columnScopeOverride c2df (detect_column_types c2df) c2row)
          (firstSome
            (kindStage c2df (detect_column_types c2df) c2row
              (categoryValue c2df (detect_column_types c2df) c2row)).2
            (textScopeOf (categoryValue c2df (detect_column_types c2df) c2row))) :=
  c2_amended c2df (detect_column_types c2df) c2row (by decide)

unseal Rat.mul Rat.add Rat.sub Rat.inv Rat.ofScientific in
/-- C4: every refrigerant record's emissions are amount × resolved GWP ÷
1000; a 1 kg row whose category cell is `R-134a` yields 1 × 1430 / 1000 =
1.43 through the full pipeline, and scenario S4's 2.5 kg R-410A row
yields 2.5 × 2088 / 1000 = 5.22, both in scope 1. -/
theorem c4_refrigerant_formula :
    (∀ (F : Factors) (it : Item) (a : ℚ), it.type = "refrigerant" →
        dget it.data "amount" = some (Value.num a) →
        itemEmissions F it = a * refrigerantGWP F it / 1000)
    ∧ (pipeline r134df).lineItems.map (fun l => (l.scope, l.type, l.emissions))
        = [("scope1", "refrigerant", 1 * 1430 / 1000)]
    ∧ (1 * 1430 / 1000 : ℚ) = 1.43
    ∧ (pipeline s4df).lineItems.map (fun l => (l.scope, l.type, l.emissions))
        = [("scope1", "refrigerant", 2.5 * 2088 / 1000)]
    ∧ (2.5 * 2088 / 1000 : ℚ) = 5.22 := by
  refine ⟨?_, by decide, by decide, by decide, by decide⟩
  intro F it a htype hamt
  have hda : dataAmount it.data = a := by
    unfold dataAmount
    rw [hamt]
    rfl
  unfold itemEmissions refrigerantGWP
  rw [htype]
  simp only [hamt, hda, Option.isSome_some, Bool.and_true, Bool.and_false]
  simp

unseal Rat.mul Rat.add Rat.sub Rat.inv Rat.ofScientific in
/-- C4 witness: the ÷1000 formula applied to a concrete 2.5 kg record
carrying an `R-134a` context value. -/
theorem c4_witness :
    itemEmissions defaultFactors c4item
      = 2.5 * refrigerantGWP defaultFactors c4item / 1000 :=
  c4_refrigerant_formula.1 defaultFactors c4item 2.5 (by decide) (by decide)

unseal Rat.mul Rat.add Rat.sub Rat.inv Rat.ofScientific in
/-- C5 (counterexample): a cell holding the numeric string "42" is
numerically coercible to ℝ in the spec's sense and non-null, yet the row
mapper skips it (its runtime type is not numeric), so a row whose only
amount-role cell is `"42"` — and whose kind resolves to fuel — produces
no ActivityRecord at all. -/
theorem c5_counterexample :
    notna (Value.str "42") = true
    ∧ specCoercibleNum? (Value.str "42") = some 42
    ∧ (kindStage c5df (detect_column_types c5df) c5row
        (categoryValue c5df (detect_column_types c5df) c5row)).1 = some "fuel"
    ∧ map_to_emission_categories c5df (detect_column_types c5df) = ⟨[], [], []⟩
    ∧ (pipeline c5df).lineItems = [] := by
  exact ⟨by decide, by decide, by decide, by decide, by decide⟩

/-- C5 (amended): the classifier's mappings are in table column order;
the selected amount is the first amount-role cell of *numeric runtime
type* (numeric-looking strings are not coerced); when no such cell
exists the row silently yields nothing; and a string amount cell behaves
exactly like a null one for amount selection. -/
theorem c5_amended :
    (∀ df : DF, (detect_column_types df).map (fun p => p.1) = df.cols)
    ∧ (∀ (df : DF) (m : List (String × Mapping)) (row : String → Value),
        selectAmount df m row
          = (((roleCols m df.cols "amount").map row).filterMap numValue?).head?)
    ∧ (∀ (df : DF) (m : List (String × Mapping)) (row : String → Value),
        selectAmount df m row = none → mapRow df m row = none)
    ∧ (∀ (df : DF) (m : List (String × Mapping)) (row : String → Value)
        (c s' : String), row c = Value.str s' →
        selectAmount df m row
          = selectAmount df m (fun q => if q == c then Value.null else row q)) := by
  refine ⟨?_, ?_, ?_, ?_⟩
  · intro df
    rw [detect_column_types, List.map_map]
    exact List.map_id' df.cols
  · intro df m row
    exact selectAmountAux_eq row (roleCols m df.cols "amount")
  · intro df m row h
    cases het : (kindStage df m row (categoryValue df m row)).1 <;>
      simp [mapRow, h, het]
  · intro df m row c s' h
    exact selectAmountAux_null_for_str row c s' h (roleCols m df.cols "amount")

unseal Rat.mul Rat.add Rat.sub Rat.inv Rat.ofScientific in
/-- C5 (amended) witness: the `"42"` row is dropped, through the theorem's
no-amount clause. -/
theorem c5_amended_witness : mapRow c5df (detect_column_types c5df) c5row = none :=
  c5_amended.2.2.1 c5df (detect_column_types c5df) c5row (by decide)

unseal Rat.mul Rat.add Rat.sub Rat.inv Rat.ofScientific in
/-- C6 (counterexample): in a two-row table whose first row maps to
scope 3 (water) and second to scope 1 (diesel fuel), the report lists the
second row's line *first*: global input row order is not preserved across
scopes. -/
theorem c6_counterexample :
    (mapRow c6df (detect_column_types c6df) c6row0).map (fun p => p.1) = some 3
    ∧ (mapRow c6df (detect_column_types c6df) c6row1).map (fun p => p.1) = some 1
    ∧ (pipeline c6df).lineItems.map (fun l => (l.scope, l.type))
        = [("scope1", "fuel"), ("scope3", "water")] := by
  exact ⟨by decide, by decide, by decide⟩

unseal Rat.mul Rat.add Rat.sub Rat.inv Rat.ofScientific in
/-- C7 (counterexample): the column named `Unit kg` (name contains the
unit token `kg`), holding the string cell `banana`, is classified with
role unit but carries *no* unit hint: for string columns `detect_unit`
ignores the name and scans cell values. -/
theorem c7_counterexample :
    strContainsCI "Unit kg" "kg" = true
    ∧ (detect_column_types c7df).map (fun p => (p.1, p.2.category, p.2.unit))
        = [("Unit kg", "unit", none)]
    ∧ (none : Option String) ≠ some "kg" := by
  exact ⟨by decide, by decide, by decide⟩

/-- C7 (amended): only for a *numeric, non-empty* column whose name
pattern classifies it as role amount or unit is the unit hint determined
by the column name — via the fixed priority chain `unitFromName`,
independently of cell content.  String or empty columns derive the hint
from cell values or get ⊥. -/
theorem c7_amended (name : String) (cells : List Value)
    (h1 : namePatternRole name = some "amount" ∨ namePatternRole name = some "unit")
    (h2 : colIsNumeric cells = true) :
    (classifyColumn name cells).unit = unitFromName name := by
  have hd := colIsNumeric_not_degenerate cells h2
  rcases h1 with h1 | h1 <;>
  · unfold classifyColumn
    rw [h1]
    dsimp only
    rw [if_pos (by decide)]
    unfold detect_unit unitFromName
    rw [hd, h2]
    rfl

unseal Rat.mul Rat.add Rat.sub Rat.inv Rat.ofScientific in
/-- C7 (amended) witness: a numeric column named `Weight kg` gets the
name-derived canonical hint `kg`. -/
theorem c7_amended_witness :
    (classifyColumn "Weight kg" [Value.num 5]).unit = unitFromName "Weight kg"
    ∧ unitFromName "Weight kg" = some "kg" :=
  ⟨c7_amended "Weight kg" [Value.num 5] (Or.inl (by decide)) (by decide), by decide⟩

/-- C8: the reader releases the scratch file on the success path, but on
the path where the default read, the first-sheet read and the all-sheets
read all fail, it returns None from inside the nested handler *before*
the unlink line: the temporary file still exists after the call — the
code contradicts the documented release-on-all-exit-paths behaviour. -/
theorem c8_scratch_buffer :
    read_excel_file ⟨none, none, none⟩ = (none, true)
    ∧ read_excel_file ⟨some demoDF, none, none⟩ = (some demoDF, false) :=
  ⟨rfl, rfl⟩

unseal Rat.mul Rat.add Rat.sub Rat.inv Rat.ofScientific in
/-- C9 (counterexample): a row whose *first* non-null amount cell is 0
but that carries a second non-null amount-role column (value 7) produces
a line with emissions 7 × 2.68 = 18.76 ≠ 0: the context bag copies later
amount cells over the selected one, and scope totals change. -/
theorem c9_counterexample :
    selectAmount c9df (detect_column_types c9df) c9row = some 0
    ∧ (pipeline c9df).lineItems.map (fun l => l.emissions) = [18.76]
    ∧ (18.76 : ℚ) ≠ 0
    ∧ (pipeline c9df).scope1.total = 18.76 := by
  exact ⟨by decide, by decide, by decide, by decide⟩

/-- C9 (amended): a zero amount is not a missing amount — a row whose
amount, kind and scope resolve is emitted whatever its amount; every
record whose context amount is 0 (in particular when the zero cell is
the only non-null amount-role cell) yields a line with emissions 0; and
processing an emissions-0 record leaves the grand total, every scope
total and every per-kind total unchanged while appending exactly one
line. -/
theorem c9_amended :
    (∀ (F : Factors) (it : Item), dget it.data "amount" = some (Value.num 0) →
        itemEmissions F it = 0)
    ∧ (∀ (F : Factors) (k : String) (r : Results) (it : Item),
        itemEmissions F it = 0 →
        (stepItem F k r it).total = r.total
        ∧ (stepItem F k r it).scope1.total = r.scope1.total
        ∧ (stepItem F k r it).scope2.total = r.scope2.total
        ∧ (stepItem F k r it).scope3.total = r.scope3.total
        ∧ (∀ ty, catTotal (stepItem F k r it).scope1.categories ty
              = catTotal r.scope1.categories ty)
        ∧ (∀ ty, catTotal (stepItem F k r it).scope2.categories ty
              = catTotal r.scope2.categories ty)
        ∧ (∀ ty, catTotal (stepItem F k r it).scope3.categories ty
              = catTotal r.scope3.categories ty)
        ∧ (stepItem F k r it).lineItems = r.lineItems ++ [mkLine F k it])
    ∧ (∀ (df : DF) (m : List (String × Mapping)) (row : String → Value)
          (a : ℚ) (k : String),
        selectAmount df m row = some a →
        (kindStage df m row (categoryValue df m row)).1 = some k →
        scopeTruthy (rowScope df m row (categoryValue df m row)) = true →
        mapRow df m row
          = some ((rowScope df m row (categoryValue df m row)).getD 0,
              ⟨k, buildData df m row a (selectUnit df m row)
                (categoryValue df m row) k⟩)) := by
  refine ⟨?_, ?_, ?_⟩
  · intro F it h
    have hda : dataAmount it.data = 0 := by
      unfold dataAmount
      rw [h]
      rfl
    unfold itemEmissions
    simp only [h, hda, Option.isSome_some, Bool.and_true]
    split_ifs <;> simp
  · intro F k r it he
    refine ⟨?_, ?_, ?_, ?_, ?_, ?_, ?_, ?_⟩
    · rw [stepItem_total, he, add_zero]
    · unfold stepItem
      dsimp only
      split_ifs <;> simp [he]
    · unfold stepItem
      dsimp only
      split_ifs <;> simp [he]
    · unfold stepItem
      dsimp only
      split_ifs <;> simp [he]
    · intro ty
      unfold stepItem
      dsimp only
      split_ifs <;> simp [he, catTotal_dincr]
    · intro ty
      unfold stepItem
      dsimp only
      split_ifs <;> simp [he, catTotal_dincr]
    · intro ty
      unfold stepItem
      dsimp only
      split_ifs <;> simp [he, catTotal_dincr]
    · rw [stepItem_lineItems]
  · intro df m row a k ha hk hs
    unfold mapRow
    dsimp only
    rw [ha, hk, hs]
    simp

unseal Rat.mul Rat.add Rat.sub Rat.inv Rat.ofScientific in
/-- C9 (amended) witness: a concrete zero-amount water record yields
zero emissions, through the theorem's first clause. -/
theorem c9_amended_witness : itemEmissions defaultFactors zeroItem = 0 :=
  c9_amended.1 defaultFactors zeroItem (by decide)

/-- C10: a row is emitted only when amount, kind and scope all resolve —
if every mapping carries a ⊥ scope hint, some kind-role column matched
the row (so the category-text kind defaults never run), and the category
text contains no `scope N`, the row yields no ActivityRecord and is
silently dropped, whatever its amount. -/
theorem c10_drop_without_scope (df : DF) (m : List (String × Mapping))
    (row : String → Value)
    (h1 : ∀ p ∈ m, p.2.scope = none)
    (h2 : (kindScan df m row).1.isSome = true)
    (h3 : ∀ s, categoryValue df m row = some s → textScope s = none) :
    mapRow df m row = none := by
  have hks2 : (kindScan df m row).2 = none :=
    kindScanAux_scope_none df.cols row m (none, none) h1 rfl
  have hov : columnScopeOverride df m row = none :=
    columnScopeOverride_none df row m h1
  have hkn : (kindScan df m row).1.isNone = false := by
    cases hx : (kindScan df m row).1 with
    | none => rw [hx] at h2; simp at h2
    | some k => rfl
  have hkst : kindStage df m row (categoryValue df m row) = kindScan df m row := by
    unfold kindStage
    dsimp only
    rw [hkn]
    simp
  have hsc : rowScope df m row (categoryValue df m row) = none := by
    unfold rowScope
    dsimp only
    rw [hkst, hks2, hov]
    match hcv : categoryValue df m row with
    | none => simp [cvTruthy]
    | some s =>
      simp only [cvTruthy, scopeTruthy, h3 s hcv, Bool.not_false, Bool.and_true]
      split_ifs <;> rfl
  cases ha : selectAmount df m row <;>
    cases hk : (kindStage df m row (categoryValue df m row)).1 <;>
    simp [mapRow, ha, hk, hsc, scopeTruthy]

unseal Rat.mul Rat.add Rat.sub Rat.inv Rat.ofScientific in
/-- C10 witness: a `Fuel`/`Amount` table whose caller-edited mappings
carry no scope hints drops the row despite a valid amount and kind. -/
theorem c10_witness : mapRow c10df c10m c10row = none := by
  apply c10_drop_without_scope
  · decide
  · decide
  · intro s hs
    rw [show categoryValue c10df c10m c10row = none from by decide] at hs
    exact Option.noConfusion hs

end CarbonAegis
